import Mathlib

/-!
Shallow embedding of the core of the sawtooth-pbft consensus engine
(src/state.rs, src/timing.rs, src/node.rs), with theorems checking the
natural-language specification against the code.

Machine integers (u64, usize) are modelled as Nat; Rust operations that can
panic (integer underflow in debug builds, `%` by zero, out-of-bounds
indexing, `panic!`) are modelled by an `Option` result where the claim
depends on them, `none` standing for the panic.  Byte strings are `List Nat`.
External collaborators (protobuf parsing, secp256k1 signatures, sha512, the
validator service's settings) are abstracted as oracle functions passed in
as parameters; the theorems quantify over all oracles.

Parts of the repository that the files under scrutiny call but whose source
is not part of this snapshot (message_log.rs, handlers.rs, message_type.rs)
are modelled from the specification document; each such definition's doc
comment says so.
-/

namespace Pbft

/-- Byte strings (Rust `Vec<u8>`, `BlockId`, `PeerId`) as lists of naturals. -/
abbrev Bytes := List Nat

/-- Rust `PeerId` from the sawtooth SDK: an opaque byte string. -/
abbrev PeerId := Bytes

/-! ## timing.rs -/

/-- Embeds `TimeoutState` from src/timing.rs. -/
inductive TimeoutState where
  | Active
  | Inactive
  | Expired
deriving DecidableEq, Repr

/-- Embeds `Timeout` from src/timing.rs.  `Instant`s are modelled as natural-number
timestamps of a monotonic clock; each method that reads `Instant::now()`
takes the current time `now` as an extra argument. -/
structure Timeout where
  state : TimeoutState
  duration : Nat
  /-- The source names both this field and the arming method `start`; Lean
  cannot, so the field is `start_time` here. -/
  start_time : Nat
deriving DecidableEq, Repr

namespace Timeout

/-- Embeds `Timeout::new` from src/timing.rs. -/
def new (duration : Nat) (now : Nat) : Timeout :=
  { state := TimeoutState.Inactive, duration := duration, start_time := now }

/-- Embeds `Timeout::is_expired` from src/timing.rs: returns the boolean result and
the updated timeout.  `Instant::now() - self.start` is `now - t.start`;
the clock being monotonic, `now ≥ t.start` on every real execution, and
truncated `Nat` subtraction agrees with `Duration` subtraction there. -/
def is_expired (t : Timeout) (now : Nat) : Bool × Timeout :=
  let t' :=
    if t.state = TimeoutState.Active ∧ t.duration < now - t.start_time then
      { t with state := TimeoutState.Expired }
    else t
  (match t'.state with
   | TimeoutState.Active => false
   | TimeoutState.Inactive => false
   | TimeoutState.Expired => true,
   t')

/-- Embeds `Timeout::start` from src/timing.rs. -/
def start (t : Timeout) (now : Nat) : Timeout :=
  { t with state := TimeoutState.Active, start_time := now }

/-- Embeds `Timeout::stop` from src/timing.rs. -/
def stop (t : Timeout) (now : Nat) : Timeout :=
  { t with state := TimeoutState.Inactive, start_time := now }

end Timeout

/-! ## state.rs -/

/-- Embeds `PbftNodeRole` from src/state.rs. -/
inductive PbftNodeRole where
  | Primary
  | Secondary
deriving DecidableEq, Repr

/-- Embeds `PbftPhase` from src/state.rs. -/
inductive PbftPhase where
  | PrePreparing
  | Preparing
  | Checking
  | Committing
  | Finished
deriving DecidableEq, Repr

/-- Embeds `PbftMode` from src/state.rs. -/
inductive PbftMode where
  | Normal
  | ViewChanging
deriving DecidableEq, Repr

/-- Embeds `PbftMessageType` from message_type.rs (not part of this snapshot).
Modelled from the spec: the message kinds named throughout the spec
(PrePrepare, Prepare, Commit, BlockNew, ViewChange, Seal) plus `Unset`,
which `check_msg_type` in src/state.rs returns for the Finished phase. -/
inductive PbftMessageType where
  | PrePrepare
  | Prepare
  | Commit
  | BlockNew
  | ViewChange
  | Unset
deriving DecidableEq, Repr

/-- Embeds `PbftBlock` from protos/pbft_message (the core's lightweight projection
of a block): `{block_id, signer_id, block_num, summary}`. -/
structure PbftBlock where
  block_id : Bytes
  signer_id : Bytes
  block_num : Nat
  summary : Bytes
deriving DecidableEq, Repr

/-- Embeds `PbftConfig` from config.rs (not part of this snapshot).  Modelled from
the spec: the fields `PbftState::new` and the node read from it. -/
structure PbftConfig where
  peers : List PeerId
  faulty_primary_timeout : Nat
  forced_view_change_period : Nat
deriving DecidableEq, Repr

/-- Embeds `PbftState` from src/state.rs. -/
structure PbftState where
  id : PeerId
  seq_num : Nat
  view : Nat
  phase : PbftPhase
  role : PbftNodeRole
  mode : PbftMode
  peer_ids : List PeerId
  f : Nat
  faulty_primary_timeout : Timeout
  forced_view_change_period : Nat
  working_block : Option PbftBlock
deriving DecidableEq, Repr

namespace PbftState

/-- Embeds `PbftState::new` from src/state.rs.  The constructor panics when
`f = (config.peers.len() - 1) / 3` is zero; the panic is modelled as `none`.
(`config.peers[0]` is only reached with `f ≠ 0`, hence with at least four
peers, so the indexing is total on the `some` path; `List.getD` with an
arbitrary default mirrors it.)  `Timeout::new` reads `Instant::now()`,
passed in as `now`. -/
def new (id : PeerId) (head_block_num : Nat) (config : PbftConfig) (now : Nat) :
    Option PbftState :=
  let f := (config.peers.length - 1) / 3
  if f = 0 then none
  else
    some
      { id := id
        seq_num := head_block_num + 1
        view := 0
        phase := PbftPhase.PrePreparing
        role := if config.peers.getD 0 [] = id then PbftNodeRole.Primary
                else PbftNodeRole.Secondary
        mode := PbftMode.Normal
        f := f
        peer_ids := config.peers
        faulty_primary_timeout := Timeout.new config.faulty_primary_timeout now
        forced_view_change_period := config.forced_view_change_period
        working_block := none }

/-- Embeds `PbftState::check_msg_type` from src/state.rs. -/
def check_msg_type (s : PbftState) : PbftMessageType :=
  match s.phase with
  | PbftPhase.PrePreparing => PbftMessageType.PrePrepare
  | PbftPhase.Preparing => PbftMessageType.Prepare
  | PbftPhase.Checking => PbftMessageType.Prepare
  | PbftPhase.Committing => PbftMessageType.Commit
  | PbftPhase.Finished => PbftMessageType.Unset

/-- Embeds `PbftState::is_primary` from src/state.rs. -/
def is_primary (s : PbftState) : Bool :=
  s.role = PbftNodeRole.Primary

/-- Embeds `PbftState::upgrade_role` from src/state.rs. -/
def upgrade_role (s : PbftState) : PbftState :=
  { s with role := PbftNodeRole.Primary }

/-- Embeds `PbftState::downgrade_role` from src/state.rs. -/
def downgrade_role (s : PbftState) : PbftState :=
  { s with role := PbftNodeRole.Secondary }

/-- The successor computed by the `match` at the top of
`PbftState::switch_phase` in src/state.rs. -/
def nextPhase : PbftPhase → PbftPhase
  | PbftPhase.PrePreparing => PbftPhase.Preparing
  | PbftPhase.Preparing => PbftPhase.Checking
  | PbftPhase.Checking => PbftPhase.Committing
  | PbftPhase.Committing => PbftPhase.Finished
  | PbftPhase.Finished => PbftPhase.PrePreparing

/-- Embeds `PbftState::switch_phase` from src/state.rs: returns the
`Option<PbftPhase>` result together with the updated state. -/
def switch_phase (s : PbftState) (desired_phase : PbftPhase) :
    Option PbftPhase × PbftState :=
  let next := nextPhase s.phase
  if desired_phase = next then
    (some desired_phase, { s with phase := desired_phase })
  else
    (none, s)

/-- Embeds `PbftState::at_forced_view_change` from src/state.rs:
`self.seq_num > 0 && self.seq_num % self.forced_view_change_period == 0`.
Rust's `&&` short-circuits, and `%` with a zero divisor panics; the panic is
modelled as `none`. -/
def at_forced_view_change (s : PbftState) : Option Bool :=
  if s.seq_num > 0 then
    if s.forced_view_change_period = 0 then none
    else some (s.seq_num % s.forced_view_change_period = 0)
  else some false

/-- Embeds `PbftState::discard_current_block` from src/state.rs. -/
def discard_current_block (s : PbftState) (now : Nat) : PbftState :=
  { s with
    working_block := none
    phase := PbftPhase.PrePreparing
    mode := PbftMode.Normal
    faulty_primary_timeout := s.faulty_primary_timeout.start now }

end PbftState

/-! ## Message and seal data (protos/pbft_message, sawtooth SDK) -/

/-- Embeds `PbftMessageInfo` from protos/pbft_message:
`{msg_type, view, seq_num, signer_id}`. -/
structure PbftMessageInfo where
  msg_type : PbftMessageType
  view : Nat
  seq_num : Nat
  signer_id : Bytes
deriving DecidableEq, Repr

/-- Embeds `PbftMessage` from protos/pbft_message: an info plus a block. -/
structure PbftMessage where
  info : PbftMessageInfo
  block : PbftBlock
deriving DecidableEq, Repr

/-- Embeds `PbftSignedCommitVote` from protos/pbft_message. -/
structure PbftSignedCommitVote where
  header_bytes : Bytes
  header_signature : Bytes
  message_bytes : Bytes
deriving DecidableEq, Repr

/-- Embeds `PbftSeal` from protos/pbft_message. -/
structure PbftSeal where
  previous_id : Bytes
  summary : Bytes
  previous_commit_votes : List PbftSignedCommitVote
deriving DecidableEq, Repr

/-- Embeds `PbftViewChange` from protos/pbft_message: an info plus an attached seal. -/
structure PbftViewChange where
  info : PbftMessageInfo
  /-- The source names this field `seal`; that word is reserved here, so the
  field is `vc_seal`. -/
  vc_seal : PbftSeal
deriving DecidableEq, Repr

/-- Rust `ConsensusPeerMessageHeader` from the sawtooth SDK: the fields
`verify_consensus_vote` reads. -/
structure ConsensusPeerMessageHeader where
  signer_id : Bytes
  content_sha512 : Bytes
deriving DecidableEq, Repr

/-- Rust `Block` from the sawtooth SDK consensus engine (the host's view):
`{block_id, previous_id, signer_id, block_num, payload, summary}`. -/
structure Block where
  block_id : Bytes
  previous_id : Bytes
  signer_id : Bytes
  block_num : Nat
  payload : Bytes
  summary : Bytes
deriving DecidableEq, Repr

/-- Embeds `PbftError` from error.rs (kinds per the spec's error taxonomy and the
uses in src/node.rs). -/
inductive PbftError where
  | SerializationError
  | NoBlockNew
  | NotReadyForMessage
  | NoWorkingBlock
  | BlockMismatch (got : PbftBlock) (expected : PbftBlock)
  | WrongNumMessages
  | InternalError (msg : String)
  | Timeout
deriving DecidableEq, Repr

/-- Embeds `pbft_block_from_block` from src/node.rs. -/
def pbft_block_from_block (block : Block) : PbftBlock :=
  { block_id := block.block_id
    signer_id := block.signer_id
    block_num := block.block_num
    summary := block.summary }

/-- Embeds `ParsedMessage` from message_type.rs (not part of this snapshot).
Modelled from the spec: `{info, block?, header_bytes, header_signature,
message_bytes, from_self}` — here the parsed `PbftMessage` (info and block)
is stored structurally, and the retained raw `message_bytes` are kept as a
field of their own. -/
structure ParsedMessage where
  message : PbftMessage
  header_bytes : Bytes
  header_signature : Bytes
  message_bytes : Bytes
  from_self : Bool
deriving DecidableEq, Repr

namespace ParsedMessage

/-- Embeds `ParsedMessage::info` (message_type.rs).  Modelled from the spec: the
info attached to the message. -/
def info (m : ParsedMessage) : PbftMessageInfo := m.message.info

/-- Embeds `ParsedMessage::get_block` (message_type.rs).  Modelled from the spec:
the block attached to the message. -/
def get_block (m : ParsedMessage) : PbftBlock := m.message.block

/-- Embeds `ParsedMessage::from_pbft_message` (message_type.rs).  Modelled from the
spec: wraps a `PbftMessage` produced locally; no transport header exists, so
the header fields are empty and `from_self` is true. -/
def from_pbft_message (msg : PbftMessage) : ParsedMessage :=
  { message := msg
    header_bytes := []
    header_signature := []
    message_bytes := []
    from_self := true }

/-- Embeds `ParsedMessage::as_msg_type` (message_type.rs).  Modelled from the spec:
the same message re-labelled with another message type (used by catch-up to
treat a sealed vote as a live Commit). -/
def as_msg_type (m : ParsedMessage) (t : PbftMessageType) : ParsedMessage :=
  { m with message := { m.message with info := { m.message.info with msg_type := t } } }

end ParsedMessage

/-! ## Oracles for external collaborators -/

/-- Oracle bundling the externals of src/node.rs: protobuf parsing
(`protobuf::parse_from_bytes` at each of the three message types it is
instantiated with), secp256k1 signature verification
(`context.verify(signature_hex, header_bytes, key-of-signer_id)`, `none`
standing for a context error, `some b` for `Ok(b)`), and sha512 hashing
(`verify_sha512(bytes, expected)` succeeds iff `sha512 bytes = expected`).
The theorems hold for every oracle. -/
structure ProtoOracle where
  parseSeal : Bytes → Option PbftSeal
  parsePbftMessage : Bytes → Option PbftMessage
  parseHeader : Bytes → Option ConsensusPeerMessageHeader
  verifySig : Bytes → Bytes → Bytes → Option Bool
  sha512 : Bytes → Bytes

/-- The validator service's `get_settings(block_id,
["sawtooth.consensus.pbft.peers"])` composed with
`get_peers_from_settings` (config.rs): the on-chain ordered peer list as of
a given block id.  Abstracted as a function the theorems quantify over. -/
abbrev SettingsPeers := Bytes → List PeerId

/-- Calls the node makes back into the host, recorded as events.  The
synchronous self-delivery a production `_broadcast_message` performs by
re-entering `on_peer_message` is recorded as an event as well (tests disable
it; the host loop semantics are outside the embedded fragment). -/
inductive HostCall where
  | initialize_block (previous_id : Option Bytes)
  | commit_block (block_id : Bytes)
  | fail_block (block_id : Bytes)
  | check_blocks (ids : List Bytes)
  | broadcast_view_change (msg : PbftViewChange)
  | self_deliver_view_change (msg : PbftViewChange)
deriving DecidableEq, Repr

/-! ## Message log (message_log.rs, not part of this snapshot) -/

/-- Embeds `PbftLog` from message_log.rs.  Modelled from the spec: the stored
parsed messages and the map `seq_num → seal`; the backlog plays no role in
the claims settled here. -/
structure PbftLog where
  messages : List ParsedMessage
  seals : List (Nat × PbftSeal)
deriving DecidableEq, Repr

namespace PbftLog

/-- Embeds `PbftLog::add_message` (message_log.rs).  Modelled from the spec:
store the message under its (type, view, seq); idempotent for exact
duplicates. -/
def add_message (log : PbftLog) (m : ParsedMessage) : PbftLog :=
  if m ∈ log.messages then log else { log with messages := log.messages ++ [m] }

/-- Embeds `PbftLog::get_messages_of_type_seq` (message_log.rs).  Modelled from the
spec: the ordered list of stored messages of the given type and sequence
number. -/
def get_messages_of_type_seq (log : PbftLog) (t : PbftMessageType) (seq : Nat) :
    List ParsedMessage :=
  log.messages.filter fun m => m.info.msg_type = t ∧ m.info.seq_num = seq

/-- Embeds `PbftLog::add_consensus_seal` (message_log.rs).  Modelled from the spec:
record the seal under its sequence number. -/
def add_consensus_seal (log : PbftLog) (_block_id : Bytes) (seq : Nat)
    (sl : PbftSeal) : PbftLog :=
  { log with seals := log.seals ++ [(seq, sl)] }

/-- Embeds `PbftLog::get_consensus_seal` (message_log.rs).  Modelled from the spec:
look up the seal stored for the sequence number; the call site in
`propose_view_change` applies `?` to it, so a missing seal is an error. -/
def get_consensus_seal (log : PbftLog) (seq : Nat) : Except PbftError PbftSeal :=
  match log.seals.find? (fun p => p.1 = seq) with
  | some p => Except.ok p.2
  | none => Except.error (PbftError.InternalError "No seal for sequence number")

/-- Embeds `PbftLog::garbage_collect` (message_log.rs).  Modelled from the spec:
discard messages strictly older than `committed_seq − k` for a small
retention window (here `k = 1`). -/
def garbage_collect (log : PbftLog) (committed_seq : Nat) (_block_id : Bytes) :
    PbftLog :=
  { log with messages := log.messages.filter fun m => committed_seq - 1 ≤ m.info.seq_num }

end PbftLog

/-- Embeds `make_msg_info` from handlers.rs (not part of this snapshot).  Modelled
from the spec: assembles a `PbftMessageInfo` from its four fields. -/
def make_msg_info (t : PbftMessageType) (view : Nat) (seq_num : Nat)
    (signer_id : Bytes) : PbftMessageInfo :=
  { msg_type := t, view := view, seq_num := seq_num, signer_id := signer_id }

namespace Handlers

/-- Embeds `handlers::commit` from handlers.rs (not part of this snapshot).
Modelled from the spec: on a committable Commit in phase Committing,
"call host `commit_block(block_id)` and transition Committing→Finished". -/
def commit (state : PbftState) (msg : ParsedMessage) :
    PbftState × List HostCall :=
  let state := (state.switch_phase PbftPhase.Finished).2
  (state, [HostCall.commit_block msg.get_block.block_id])

/-- Embeds `handlers::force_view_change` from handlers.rs (not part of this
snapshot).  Modelled from the spec: "unconditionally performs the transition
used at the end of a view change, advancing view by 1 and resetting working
state" — the reset being `discard_current_block`. -/
def force_view_change (state : PbftState) (now : Nat) : PbftState :=
  ({ state with view := state.view + 1 } : PbftState).discard_current_block now

end Handlers

/-! ## src/node.rs -/

/-- Embeds `HashSet::insert` on a set represented as a duplicate-free list (holding
insertion order, which the claims never observe). -/
def hsInsert (s : List Bytes) (x : Bytes) : List Bytes :=
  if x ∈ s then s else s ++ [x]

namespace PbftNode

/-- Embeds `PbftNode::verify_consensus_vote` from src/node.rs: checks one
`PbftSignedCommitVote` of a seal and returns the inner message's signer id.
`Secp256k1PublicKey::from_hex(...).unwrap()` and `create_context` are
folded into the oracle's `verifySig` (`none` = context error → the
`InternalError` arm). -/
def verify_consensus_vote (O : ProtoOracle) (vote : PbftSignedCommitVote)
    (sl : PbftSeal) : Except PbftError Bytes :=
  match O.parsePbftMessage vote.message_bytes with
  | none => Except.error PbftError.SerializationError
  | some message =>
    if message.block.block_id ≠ sl.previous_id then
      Except.error (PbftError.InternalError
        "PbftMessage block ID doesn't match seal's previous id!")
    else
      match O.parseHeader vote.header_bytes with
      | none => Except.error PbftError.SerializationError
      | some header =>
        match O.verifySig vote.header_signature vote.header_bytes header.signer_id with
        | some true =>
          if O.sha512 vote.message_bytes = header.content_sha512 then
            Except.ok message.info.signer_id
          else
            Except.error (PbftError.InternalError "sha512 mismatch")
        | some false =>
          Except.error (PbftError.InternalError "Header failed verification!")
        | none =>
          Except.error (PbftError.InternalError "Error while verifying header")

/-- The `try_fold` in `PbftNode::verify_consensus_seal`, written as the
recursion it performs: verify each vote in order, short-circuiting on the
first error, and collect the distinct signer ids (a `HashSet` in the
source). -/
def collectVoterIdsAux (O : ProtoOracle) (sl : PbftSeal) :
    List PbftSignedCommitVote → List Bytes → Except PbftError (List Bytes)
  | [], ids => Except.ok ids
  | v :: rest, ids =>
    match verify_consensus_vote O v sl with
    | Except.error e => Except.error e
    | Except.ok vid => collectVoterIdsAux O sl rest (hsInsert ids vid)

/-- The voter-id set computed by the `try_fold` in
`PbftNode::verify_consensus_seal`, starting from the empty set. -/
def collectVoterIds (O : ProtoOracle) (sl : PbftSeal) :
    Except PbftError (List Bytes) :=
  collectVoterIdsAux O sl sl.previous_commit_votes []

/-- Embeds `PbftNode::verify_consensus_seal` from src/node.rs.  The service's
settings lookup at `block.previous_id` is the `sp` oracle; only `state.f`
is read from the state.  On the previous-id-mismatch branch the source
builds its error message with `hex::encode(&seal.previous_id[..3])` and
`hex::encode(&block.previous_id[..3])`; those slices panic whenever either
id is shorter than 3 bytes, so that case returns no error at all — the
panic is modelled as the outer `none`. -/
def verify_consensus_seal (O : ProtoOracle) (sp : SettingsPeers)
    (state : PbftState) (block : Block) :
    Option (Except PbftError (Option PbftSeal)) :=
  if block.block_num < 2 then
    some (Except.ok none)
  else if block.payload = [] then
    some (Except.error (PbftError.InternalError
      "Got empty payload for non-genesis block!"))
  else
    match O.parseSeal block.payload with
    | none => some (Except.error PbftError.SerializationError)
    | some sl =>
      if sl.previous_id ≠ block.previous_id then
        -- the `[..3]` slices in the `format!` panic for ids shorter than
        -- 3 bytes; only when both slices succeed is the error returned
        if sl.previous_id.length < 3 ∨ block.previous_id.length < 3 then
          none
        else
          some (Except.error (PbftError.InternalError
            "Seal's previous ID doesn't match block's previous ID"))
      else if sl.summary ≠ block.summary then
        some (Except.error (PbftError.InternalError
          "Seal's summary doesn't match block's summary"))
      else
        match collectVoterIds O sl with
        | Except.error e => some (Except.error e)
        | Except.ok voter_ids =>
          let peer_ids := (sp block.previous_id).filter fun pid => pid ≠ block.signer_id
          if ¬ (∀ vid ∈ voter_ids, vid ∈ peer_ids) then
            some (Except.error (PbftError.InternalError "Got unexpected vote IDs"))
          else if voter_ids.length < 2 * state.f then
            some (Except.error (PbftError.InternalError "Not enough votes"))
          else
            some (Except.ok (some sl))

/-- Embeds `PbftNode::update_membership` from src/node.rs: compares the on-chain
peer set (as a `HashSet`, i.e. up to order and multiplicity) with
`state.peer_ids`; on change adopts the new ordered list and recomputes `f`,
panicking (`none`) when the new `f` is zero. -/
def update_membership (sp : SettingsPeers) (block_id : Bytes)
    (state : PbftState) : Option (Bool × PbftState) :=
  let peers := sp block_id
  if ¬ (∀ p ∈ peers, p ∈ state.peer_ids) ∨ ¬ (∀ p ∈ state.peer_ids, p ∈ peers) then
    let f := (peers.length - 1) / 3
    if f = 0 then none
    else some (true, { state with peer_ids := peers, f := f })
  else
    some (false, state)

/-- Embeds `PbftNode::on_block_commit` from src/node.rs.  Mutates the log and the
state and emits host calls; `none` models a panic (from `%` by zero in
`at_forced_view_change`, or from `update_membership` aborting).  `now` is
the time read when restarting the faulty-primary timer. -/
def on_block_commit (sp : SettingsPeers) (now : Nat) (log : PbftLog)
    (block_id : Bytes) (state : PbftState) :
    Option (PbftLog × PbftState × List HostCall) :=
  let is_working_block : Bool :=
    match state.working_block with
    | some block => block.block_id = block_id
    | none => false
  if state.phase ≠ PbftPhase.Finished ∨ is_working_block = false then
    some (log, state, [])
  else
    let state := (state.switch_phase PbftPhase.PrePreparing).2
    let state := { state with seq_num := state.seq_num + 1 }
    let state :=
      { state with
        working_block :=
          Option.map ParsedMessage.get_block
            (log.get_messages_of_type_seq PbftMessageType.BlockNew state.seq_num).head? }
    -- `state.at_forced_view_change() || self.update_membership(...)`:
    -- Rust's `||` short-circuits, so membership is only read when the forced
    -- view change does not fire.
    let forcedOrChanged : Option (Bool × PbftState) :=
      match state.at_forced_view_change with
      | none => none
      | some true => some (true, state)
      | some false => update_membership sp block_id state
    match forcedOrChanged with
    | none => none
    | some (doChange, state) =>
      let state :=
        if doChange then Handlers.force_view_change state now else state
      let log := log.garbage_collect state.seq_num block_id
      let state :=
        { state with faulty_primary_timeout := state.faulty_primary_timeout.start now }
      if state.is_primary ∧ state.working_block = none then
        some (log, state, [HostCall.initialize_block (some block_id)])
      else
        some (log, state, [])

/-- The `try_fold` in `PbftNode::catchup`: parse every vote's inner message
into a `ParsedMessage`. -/
def parseSealMessages (O : ProtoOracle) (sl : PbftSeal) :
    Except PbftError (List ParsedMessage) :=
  sl.previous_commit_votes.foldlM
    (fun msgs v =>
      match O.parsePbftMessage v.message_bytes with
      | none => Except.error PbftError.SerializationError
      | some m => Except.ok (msgs ++ [ParsedMessage.from_pbft_message m]))
    []

/-- Embeds `PbftNode::catchup` from src/node.rs.  The outer `none` models a panic
(`messages[0]` on an empty vote list, or a panic inside the chained
`on_block_commit`); otherwise the result carries the mutated log and state,
the host calls made, and `some err` when the function returned early with an
error (mutations made before the error persist, as through `&mut`). -/
def catchup (O : ProtoOracle) (sp : SettingsPeers) (now : Nat) (log : PbftLog)
    (state : PbftState) (block : Block) :
    Option (PbftLog × PbftState × List HostCall × Option PbftError) :=
  match state.working_block with
  | none => some (log, state, [], some PbftError.NoWorkingBlock)
  | some working_block =>
    let block_num_matches := block.block_num = working_block.block_num + 1
    let block_id_matches := block.previous_id = working_block.block_id
    if ¬ block_num_matches ∨ ¬ block_id_matches then
      some (log, state, [],
        some (PbftError.BlockMismatch (pbft_block_from_block block) working_block))
    else
      match O.parseSeal block.payload with
      | none => some (log, state, [], some PbftError.SerializationError)
      | some sl =>
        match parseSealMessages O sl with
        | Except.error e => some (log, state, [], some e)
        | Except.ok messages =>
          match messages.head? with
          | none => none
          | some m0 =>
            let view := m0.info.view
            let state := if view > state.view then { state with view := view } else state
            let log := messages.foldl PbftLog.add_message log
            let state := { state with phase := PbftPhase.Committing }
            let (state, commitCalls) :=
              Handlers.commit state (m0.as_msg_type PbftMessageType.Commit)
            match on_block_commit sp now log m0.get_block.block_id state with
            | none => none
            | some (log, state, commitCalls2) =>
              some (log, state, commitCalls ++ commitCalls2, none)

/-- Embeds `PbftNode::propose_view_change` from src/node.rs.  The result carries
the mutated log and state, the host calls made (the broadcast and the
synchronous self-delivery `_broadcast_message` performs, recorded as
events), and `some err` when the function returned early with an error;
mutations made before the error (setting the mode) persist.
`state.seq_num - 1` is truncated subtraction, as in a release build. -/
def propose_view_change (log : PbftLog) (state : PbftState) :
    PbftLog × PbftState × List HostCall × Option PbftError :=
  if state.mode = PbftMode.ViewChanging then
    (log, state, [], none)
  else
    let state := { state with mode := PbftMode.ViewChanging }
    let info := make_msg_info PbftMessageType.ViewChange (state.view + 1)
      (state.seq_num - 1) state.id
    match log.get_consensus_seal (state.seq_num - 1) with
    | Except.error e => (log, state, [], some e)
    | Except.ok sl =>
      let vc_msg : PbftViewChange := { info := info, vc_seal := sl }
      (log, state,
        [HostCall.broadcast_view_change vc_msg,
         HostCall.self_deliver_view_change vc_msg], none)

end PbftNode

/-! ## Specification-side predicates for the seal verifier

These restate, directly from the spec's words, what a single vote must
satisfy and which voter ids a seal carries; the theorem for the verifier
relates `PbftNode.verify_consensus_seal` to them. -/

/-- Spec-side predicate for one vote of a seal: the inner Commit message
parses and references `seal.previous_id`, the transport header parses, the
header signature verifies, and the sha512 of the message bytes equals the
header's content hash. -/
def voteVerifies (O : ProtoOracle) (sl : PbftSeal) (v : PbftSignedCommitVote) : Prop :=
  ∃ m h,
    O.parsePbftMessage v.message_bytes = some m ∧
    m.block.block_id = sl.previous_id ∧
    O.parseHeader v.header_bytes = some h ∧
    O.verifySig v.header_signature v.header_bytes h.signer_id = some true ∧
    O.sha512 v.message_bytes = h.content_sha512

/-- The voter identity a vote contributes: the inner message's signer id
(junk when the message does not parse — only read under `voteVerifies`). -/
def voteSignerId (O : ProtoOracle) (v : PbftSignedCommitVote) : Bytes :=
  match O.parsePbftMessage v.message_bytes with
  | some m => m.info.signer_id
  | none => []

/-- Spec-side set of distinct voter ids of a seal, as a duplicate-free list
in first-appearance order. -/
def sealVoterIds (O : ProtoOracle) (sl : PbftSeal) : List Bytes :=
  sl.previous_commit_votes.foldl (fun ids v => hsInsert ids (voteSignerId O v)) []

/-! ## Concrete fixtures used by witnesses and counterexamples -/

/-- A concrete timeout for fixtures. -/
def witTimeout : Timeout := Timeout.new 10 0

/-- A four-peer state as `PbftState::new [0] 0 (mock_config 4)` produces. -/
def witState : PbftState :=
  { id := [0], seq_num := 1, view := 0, phase := PbftPhase.PrePreparing,
    role := PbftNodeRole.Primary, mode := PbftMode.Normal,
    peer_ids := [[0], [1], [2], [3]], f := 1,
    faulty_primary_timeout := witTimeout, forced_view_change_period := 30,
    working_block := none }

/-- A concrete config with four peers. -/
def witConfig : PbftConfig :=
  { peers := [[0], [1], [2], [3]], faulty_primary_timeout := 10,
    forced_view_change_period := 30 }

/-- A concrete two-vote seal over a block with id `[7]` and summary `[5]`. -/
def sealOne : PbftSeal :=
  { previous_id := [7], summary := [5],
    previous_commit_votes :=
      [ { header_bytes := [31], header_signature := [41], message_bytes := [1] },
        { header_bytes := [32], header_signature := [42], message_bytes := [2] } ] }

/-- A concrete oracle under which both votes of `sealOne` verify. -/
def oracleOne : ProtoOracle :=
  { parseSeal := fun b => if b = [9] then some sealOne else none
    parsePbftMessage := fun b =>
      if b = [1] then
        some { info := { msg_type := PbftMessageType.Commit, view := 0,
                         seq_num := 6, signer_id := [11] },
               block := { block_id := [7], signer_id := [11], block_num := 6,
                          summary := [5] } }
      else if b = [2] then
        some { info := { msg_type := PbftMessageType.Commit, view := 0,
                         seq_num := 6, signer_id := [12] },
               block := { block_id := [7], signer_id := [12], block_num := 6,
                          summary := [5] } }
      else none
    parseHeader := fun b =>
      if b = [31] then some { signer_id := [21], content_sha512 := [1] }
      else if b = [32] then some { signer_id := [22], content_sha512 := [2] }
      else none
    verifySig := fun _ _ _ => some true
    sha512 := fun b => b }

/-- A concrete block (number 2) whose payload `[9]` parses to `sealOne`. -/
def blockOne : Block :=
  { block_id := [8], previous_id := [7], signer_id := [13], block_num := 2,
    payload := [9], summary := [5] }

/-- Settings oracle: the peer set is `[[11], [12], [13]]` at every block. -/
def peersOne : SettingsPeers := fun _ => [[11], [12], [13]]

/-- A seal whose one-byte previous id `[1]` mismatches `blockOne`'s
previous id `[7]`. -/
def sealShort : PbftSeal :=
  { previous_id := [1], summary := [5], previous_commit_votes := [] }

/-- The oracle of `oracleOne`, except that the payload `[9]` parses to
`sealShort`. -/
def oracleShort : ProtoOracle :=
  { oracleOne with parseSeal := fun b => if b = [9] then some sealShort else none }

/-- A seal with an empty vote list. -/
def sealEmpty : PbftSeal :=
  { previous_id := [7], summary := [], previous_commit_votes := [] }

/-- An oracle that parses every payload to the empty-vote seal. -/
def oracleEmpty : ProtoOracle :=
  { parseSeal := fun _ => some sealEmpty
    parsePbftMessage := fun _ => none
    parseHeader := fun _ => none
    verifySig := fun _ _ _ => none
    sha512 := fun b => b }

/-- The working block at sequence number 5 with id `[7]`. -/
def wbFive : PbftBlock :=
  { block_id := [7], signer_id := [11], block_num := 5, summary := [] }

/-- A state working on block 5, ready for catch-up. -/
def stateCatchup : PbftState :=
  { witState with seq_num := 5, working_block := some wbFive }

/-- Block number 6 chaining onto `wbFive`. -/
def blockSix : Block :=
  { block_id := [8], previous_id := [7], signer_id := [11], block_num := 6,
    payload := [], summary := [] }

/-- An empty message log. -/
def emptyLog : PbftLog := { messages := [], seals := [] }

/-- A log holding a stored seal for sequence number 0. -/
def logWithSeal : PbftLog := { messages := [], seals := [(0, sealEmpty)] }

/-- Settings oracle agreeing with `witState`'s peer set. -/
def peersSame : SettingsPeers := fun _ => [[0], [1], [2], [3]]

/-- A finished state whose working block is `wbFive`. -/
def stateFinished : PbftState :=
  { witState with
    seq_num := 5
    phase := PbftPhase.Finished
    working_block := some wbFive }

/-! ## Theorems -/

/-- C4: for every state and desired phase, `switch_phase(desired)` returns
`some desired` and sets the phase to `desired` if and only if `desired` is
the immediate successor of the current phase in the cycle
PrePreparing → Preparing → Checking → Committing → Finished → PrePreparing;
otherwise it returns `none` and leaves the state (phase and all other
fields) unchanged. -/
theorem switch_phase_spec (s : PbftState) (desired : PbftPhase) :
    (PbftState.nextPhase PbftPhase.PrePreparing = PbftPhase.Preparing ∧
     PbftState.nextPhase PbftPhase.Preparing = PbftPhase.Checking ∧
     PbftState.nextPhase PbftPhase.Checking = PbftPhase.Committing ∧
     PbftState.nextPhase PbftPhase.Committing = PbftPhase.Finished ∧
     PbftState.nextPhase PbftPhase.Finished = PbftPhase.PrePreparing) ∧
    (s.switch_phase desired = (some desired, { s with phase := desired }) ↔
      desired = PbftState.nextPhase s.phase) ∧
    (desired ≠ PbftState.nextPhase s.phase → s.switch_phase desired = (none, s)) := by
  refine ⟨⟨rfl, rfl, rfl, rfl, rfl⟩, ?_, ?_⟩ <;>
    by_cases h : desired = PbftState.nextPhase s.phase <;>
      simp [PbftState.switch_phase, h]

/-- Witness for C4 at a concrete state: from PrePreparing, a jump to
Checking is refused and the state is untouched. -/
theorem switch_phase_spec_witness :
    witState.switch_phase PbftPhase.Checking = (none, witState) :=
  (switch_phase_spec witState PbftPhase.Checking).2.2 (by decide)

/-- C5: `PbftState::new` refuses to start (panics) if and only if
`⌊(|config.peers| − 1)/3⌋ = 0`, equivalently the network has fewer than
four peers; when it succeeds it sets `f = ⌊(|config.peers| − 1)/3⌋ ≥ 1`. -/
theorem pbftstate_new_spec (pid : PeerId) (head : Nat) (config : PbftConfig)
    (now : Nat) :
    (PbftState.new pid head config now = none ↔
      (config.peers.length - 1) / 3 = 0) ∧
    ((config.peers.length - 1) / 3 = 0 ↔ config.peers.length < 4) ∧
    (∀ st, PbftState.new pid head config now = some st →
      st.f = (config.peers.length - 1) / 3 ∧ 1 ≤ st.f) := by
  refine ⟨?_, by omega, ?_⟩
  · by_cases h : (config.peers.length - 1) / 3 = 0 <;> simp [PbftState.new, h]
  · intro st hst
    by_cases h : (config.peers.length - 1) / 3 = 0
    · simp [PbftState.new, h] at hst
    · simp [PbftState.new, h] at hst
      subst hst
      exact ⟨rfl, Nat.one_le_iff_ne_zero.mpr h⟩

/-- Witness for C5 at a concrete four-peer config: construction succeeds
with `f = 1`. -/
theorem pbftstate_new_spec_witness :
    1 ≤ ((PbftState.new [0] 0 witConfig 0).getD witState).f :=
  ((pbftstate_new_spec [0] 0 witConfig 0).2.2
    ((PbftState.new [0] 0 witConfig 0).getD witState) (by decide)).2

/-- C10: for every id, head block number and config with at least four
peers, `PbftState::new` succeeds and returns a state with
`seq_num = head + 1`, `view = 0`, phase PrePreparing, mode Normal, no
working block, `peer_ids = config.peers`, and role Primary exactly when
`config.peers[0]` equals the node's id. -/
theorem pbftstate_new_fields (pid : PeerId) (head : Nat) (config : PbftConfig)
    (now : Nat) (h : 4 ≤ config.peers.length) :
    ∃ st, PbftState.new pid head config now = some st ∧
      st.seq_num = head + 1 ∧ st.view = 0 ∧
      st.phase = PbftPhase.PrePreparing ∧ st.mode = PbftMode.Normal ∧
      st.working_block = none ∧ st.peer_ids = config.peers ∧
      (st.role = PbftNodeRole.Primary ↔ config.peers.getD 0 [] = pid) := by
  have hf : ¬ (config.peers.length - 1) / 3 = 0 := by omega
  refine ⟨{ id := pid
            seq_num := head + 1
            view := 0
            phase := PbftPhase.PrePreparing
            role := if config.peers.getD 0 [] = pid then PbftNodeRole.Primary
                    else PbftNodeRole.Secondary
            mode := PbftMode.Normal
            f := (config.peers.length - 1) / 3
            peer_ids := config.peers
            faulty_primary_timeout := Timeout.new config.faulty_primary_timeout now
            forced_view_change_period := config.forced_view_change_period
            working_block := none },
          by simp [PbftState.new, hf], rfl, rfl, rfl, rfl, rfl, rfl, ?_⟩
  by_cases hid : config.peers.getD 0 [] = pid <;> simp [hid]

/-- Witness for C10: the concrete four-peer config with id `[0]`. -/
theorem pbftstate_new_fields_witness :
    ∃ st, PbftState.new [0] 0 witConfig 0 = some st ∧
      st.seq_num = 0 + 1 ∧ st.view = 0 ∧
      st.phase = PbftPhase.PrePreparing ∧ st.mode = PbftMode.Normal ∧
      st.working_block = none ∧ st.peer_ids = witConfig.peers ∧
      (st.role = PbftNodeRole.Primary ↔ witConfig.peers.getD 0 [] = [0]) :=
  pbftstate_new_fields [0] 0 witConfig 0 (by decide)

/-- C9: for every state with `forced_view_change_period = 0` and
`seq_num > 0`, `at_forced_view_change` computes `seq_num mod 0` and panics
(`none`); the `seq_num > 0` guard short-circuits only at `seq_num = 0`,
where the result is `false` for every period. -/
theorem at_forced_view_change_spec (s : PbftState) :
    (0 < s.seq_num → s.forced_view_change_period = 0 →
      s.at_forced_view_change = none) ∧
    (s.seq_num = 0 → s.at_forced_view_change = some false) := by
  constructor
  · intro h1 h2
    simp [PbftState.at_forced_view_change, h1, h2]
  · intro h
    simp [PbftState.at_forced_view_change, h]

/-- Witness for C9 at concrete states: period 0 with seq_num 1 panics;
seq_num 0 returns false (here even with period 0). -/
theorem at_forced_view_change_spec_witness :
    ({ witState with forced_view_change_period := 0 } : PbftState).at_forced_view_change
      = none ∧
    ({ witState with seq_num := 0 } : PbftState).at_forced_view_change
      = some false :=
  ⟨(at_forced_view_change_spec _).1 (by decide) (by decide),
   (at_forced_view_change_spec _).2 (by decide)⟩

/-- C7: a freshly constructed Timeout is Inactive and its expiry check is
false regardless of the current time; after `start` at time `n1`, a check
at time `n2` returns true exactly when the elapsed `n2 − n1` exceeds the
duration; once a check has returned true, every later check also returns
true; `stop` returns the timeout to Inactive, where checks return false
again. -/
theorem timeout_spec (t : Timeout) (d t0 n1 n2 : Nat) :
    ((Timeout.new d t0).state = TimeoutState.Inactive) ∧
    (((Timeout.new d t0).is_expired n1).1 = false) ∧
    (((t.start n1).is_expired n2).1 = true ↔ t.duration < n2 - n1) ∧
    ((t.is_expired n1).1 = true →
      (((t.is_expired n1).2).is_expired n2).1 = true) ∧
    ((t.stop n1).state = TimeoutState.Inactive) ∧
    (((t.stop n1).is_expired n2).1 = false) := by
  refine ⟨rfl, by simp [Timeout.new, Timeout.is_expired], ?_, ?_, rfl,
    by simp [Timeout.stop, Timeout.is_expired]⟩
  · by_cases h : t.duration < n2 - n1 <;>
      simp [Timeout.start, Timeout.is_expired, h]
  · intro h
    rcases ht : t.state with h1 | h1 | h1 <;>
      by_cases hd : t.duration < n1 - t.start_time <;>
        simp_all [Timeout.is_expired, ht]

/-- Witness for C7 at concrete times: a timeout of duration 10 started at 5
is expired at 16, and stays expired at 17. -/
theorem timeout_spec_witness :
    (((witTimeout.start 5).is_expired 16).1 = true) ∧
    (((((witTimeout.start 5).is_expired 16).2).is_expired 17).1 = true) :=
  ⟨(timeout_spec witTimeout 10 0 5 16).2.2.1.mpr (by decide),
   (timeout_spec ((witTimeout.start 5)) 10 0 16 17).2.2.2.1 (by decide)⟩

/-- Helper: `update_membership` never touches the phase or the sequence
number. -/
theorem update_membership_preserves (sp : SettingsPeers) (bid : Bytes)
    (st : PbftState) (b : Bool) (st2 : PbftState)
    (h : PbftNode.update_membership sp bid st = some (b, st2)) :
    st2.phase = st.phase ∧ st2.seq_num = st.seq_num := by
  simp only [PbftNode.update_membership] at h
  split at h
  · split at h
    · exact absurd h (by simp)
    · obtain ⟨rfl, rfl⟩ := by simpa using h
      exact ⟨rfl, rfl⟩
  · obtain ⟨rfl, rfl⟩ := by simpa using h
    exact ⟨rfl, rfl⟩

/-- Helper: `force_view_change` resets the phase to PrePreparing and keeps
the sequence number. -/
theorem force_view_change_phase_seq (st : PbftState) (now : Nat) :
    (Handlers.force_view_change st now).phase = PbftPhase.PrePreparing ∧
    (Handlers.force_view_change st now).seq_num = st.seq_num :=
  ⟨rfl, rfl⟩

/-- C2: for every state with phase Finished and a working block whose id
equals the given block id, `on_block_commit` (when it returns normally)
sets the phase to PrePreparing and increases `seq_num` by exactly 1; for
every state where the phase is not Finished or the id does not match the
working block, it returns leaving log, state and host calls untouched. -/
theorem on_block_commit_spec (sp : SettingsPeers) (now : Nat) (log : PbftLog)
    (block_id : Bytes) (s : PbftState) :
    ((s.phase ≠ PbftPhase.Finished ∨
        (∀ wb, s.working_block = some wb → wb.block_id ≠ block_id)) →
      PbftNode.on_block_commit sp now log block_id s = some (log, s, [])) ∧
    (∀ wb log2 s2 calls, s.phase = PbftPhase.Finished →
      s.working_block = some wb → wb.block_id = block_id →
      PbftNode.on_block_commit sp now log block_id s = some (log2, s2, calls) →
      s2.phase = PbftPhase.PrePreparing ∧ s2.seq_num = s.seq_num + 1) := by
  constructor
  · intro hguard
    rcases hguard with h | h
    · simp [PbftNode.on_block_commit, h]
    · cases hwb : s.working_block with
      | none => simp [PbftNode.on_block_commit, hwb]
      | some wb => simp [PbftNode.on_block_commit, hwb, h wb hwb]
  · intro wb log2 s2 calls hph hwb hid hrun
    rw [PbftNode.on_block_commit] at hrun
    simp only [hph, hwb, hid] at hrun
    rw [if_neg (by simp)] at hrun
    have hsw : (s.switch_phase PbftPhase.PrePreparing).2
        = { s with phase := PbftPhase.PrePreparing } := by
      simp [PbftState.switch_phase, PbftState.nextPhase, hph]
    rw [hsw] at hrun
    set s3 : PbftState :=
      { s with
        phase := PbftPhase.PrePreparing
        seq_num := s.seq_num + 1
        working_block :=
          Option.map ParsedMessage.get_block
            (log.get_messages_of_type_seq PbftMessageType.BlockNew
              (s.seq_num + 1)).head? } with hs3
    have h3 : s3.phase = PbftPhase.PrePreparing ∧ s3.seq_num = s.seq_num + 1 :=
      ⟨rfl, rfl⟩
    split at hrun
    · exact absurd hrun (by simp)
    case h_2 doChange st4 heq =>
      have h4 : st4.phase = PbftPhase.PrePreparing ∧ st4.seq_num = s.seq_num + 1 := by
        split at heq
        · exact absurd heq (by simp)
        · obtain ⟨rfl, rfl⟩ := by simpa using heq
          exact h3
        · rcases update_membership_preserves sp block_id s3 doChange st4 heq with ⟨hp, hs⟩
          exact ⟨hp.trans h3.1, hs.trans h3.2⟩
      split at hrun <;> split at hrun <;>
        · obtain ⟨rfl, rfl, rfl⟩ := by simpa using hrun
          simp [Handlers.force_view_change, PbftState.discard_current_block,
            h4.1, h4.2]

/-- Witness for C2: committing working block 5 in a Finished state leaves
the node in PrePreparing at sequence number 6. -/
theorem on_block_commit_spec_witness :
    (((PbftNode.on_block_commit peersSame 0 emptyLog [7] stateFinished).getD
        (emptyLog, witState, [])).2.1.phase = PbftPhase.PrePreparing) ∧
    (((PbftNode.on_block_commit peersSame 0 emptyLog [7] stateFinished).getD
        (emptyLog, witState, [])).2.1.seq_num = stateFinished.seq_num + 1) :=
  (on_block_commit_spec peersSame 0 emptyLog [7] stateFinished).2 wbFive
    _ _ _ rfl rfl rfl (by rfl)

/-- C3: `catchup` fails with NoWorkingBlock when no working block is set,
and with BlockMismatch when the incoming block's number is not
`working_block.block_num + 1` or its previous id is not
`working_block.block_id`; in both failure branches the log and state are
unchanged and no host call (in particular no commit) is issued. -/
theorem catchup_guard_spec (O : ProtoOracle) (sp : SettingsPeers) (now : Nat)
    (log : PbftLog) (s : PbftState) (block : Block) :
    (s.working_block = none →
      PbftNode.catchup O sp now log s block
        = some (log, s, [], some PbftError.NoWorkingBlock)) ∧
    (∀ wb, s.working_block = some wb →
      (block.block_num ≠ wb.block_num + 1 ∨ block.previous_id ≠ wb.block_id) →
      PbftNode.catchup O sp now log s block
        = some (log, s, [], some (PbftError.BlockMismatch
            (pbft_block_from_block block) wb))) := by
  constructor
  · intro h
    simp [PbftNode.catchup, h]
  · intro wb hwb hmis
    rcases hmis with h | h <;> simp [PbftNode.catchup, hwb, h]

/-- Witness for C3: a node with no working block, and a node working on
block 5 offered a block numbered 9, both fail without state change. -/
theorem catchup_guard_spec_witness :
    (PbftNode.catchup oracleEmpty peersOne 0 emptyLog witState blockSix
      = some (emptyLog, witState, [], some PbftError.NoWorkingBlock)) ∧
    (PbftNode.catchup oracleEmpty peersOne 0 emptyLog stateCatchup
        { blockSix with block_num := 9 }
      = some (emptyLog, stateCatchup, [], some (PbftError.BlockMismatch
          (pbft_block_from_block { blockSix with block_num := 9 }) wbFive))) :=
  ⟨(catchup_guard_spec oracleEmpty peersOne 0 emptyLog witState blockSix).1 rfl,
   (catchup_guard_spec oracleEmpty peersOne 0 emptyLog stateCatchup
      { blockSix with block_num := 9 }).2 wbFive rfl (Or.inl (by decide))⟩

/-- C8: for a block that passes the working-block checks and whose payload
parses to a seal with an empty `previous_commit_votes` list, `catchup`
indexes element 0 of the empty parsed-message list and panics (`none`):
the operation is not total. -/
theorem catchup_empty_seal_panics :
    PbftNode.catchup oracleEmpty peersOne 0 emptyLog stateCatchup blockSix
      = none := by
  rfl

/-- C6 counterexample: at a concrete state in Normal mode whose log holds
no seal for `seq_num − 1`, `propose_view_change` broadcasts nothing and
returns an error — after already switching the mode — refuting the claim
that outside ViewChanging mode it (always) broadcasts a ViewChange
message. -/
theorem propose_view_change_counterexample :
    witState.mode = PbftMode.Normal ∧
    PbftNode.propose_view_change emptyLog witState
      = (emptyLog, { witState with mode := PbftMode.ViewChanging }, [],
         some (PbftError.InternalError "No seal for sequence number")) := by
  constructor <;> rfl

/-- C6 (amended): `propose_view_change` is a no-op returning success in
ViewChanging mode; otherwise it sets the mode to ViewChanging and then,
when the log holds a stored seal for `seq_num − 1`, broadcasts (and
self-delivers) a ViewChange message carrying view `view + 1`, sequence
number `seq_num − 1`, this node's id as signer, and that seal; when no
seal is stored it returns the lookup error with the mode already switched
and nothing broadcast. -/
theorem propose_view_change_spec (log : PbftLog) (s : PbftState) :
    (s.mode = PbftMode.ViewChanging →
      PbftNode.propose_view_change log s = (log, s, [], none)) ∧
    (s.mode ≠ PbftMode.ViewChanging →
      (∀ e, log.get_consensus_seal (s.seq_num - 1) = Except.error e →
        PbftNode.propose_view_change log s
          = (log, { s with mode := PbftMode.ViewChanging }, [], some e)) ∧
      (∀ sl, log.get_consensus_seal (s.seq_num - 1) = Except.ok sl →
        PbftNode.propose_view_change log s
          = (log, { s with mode := PbftMode.ViewChanging },
             [HostCall.broadcast_view_change
                { info := make_msg_info PbftMessageType.ViewChange (s.view + 1)
                    (s.seq_num - 1) s.id,
                  vc_seal := sl },
              HostCall.self_deliver_view_change
                { info := make_msg_info PbftMessageType.ViewChange (s.view + 1)
                    (s.seq_num - 1) s.id,
                  vc_seal := sl }], none))) := by
  constructor
  · intro h
    simp [PbftNode.propose_view_change, h]
  · intro h
    constructor <;> intro x hx <;>
      simp [PbftNode.propose_view_change, h, hx]

/-- Witness for C6 (amended): with a stored seal for sequence 0, a node at
`seq_num = 1`, view 0, broadcasts ViewChange(view 1, seq 0) carrying the
seal. -/
theorem propose_view_change_spec_witness :
    PbftNode.propose_view_change logWithSeal witState
      = (logWithSeal, { witState with mode := PbftMode.ViewChanging },
         [HostCall.broadcast_view_change
            { info := make_msg_info PbftMessageType.ViewChange (witState.view + 1)
                (witState.seq_num - 1) witState.id,
              vc_seal := sealEmpty },
          HostCall.self_deliver_view_change
            { info := make_msg_info PbftMessageType.ViewChange (witState.view + 1)
                (witState.seq_num - 1) witState.id,
              vc_seal := sealEmpty }], none) :=
  ((propose_view_change_spec logWithSeal witState).2 (by decide)).2 sealEmpty
    (by rfl)

/-- Helper: `verify_consensus_vote` succeeds with `vid` exactly when the
vote satisfies the spec-side conditions and `vid` is its inner signer id. -/
theorem verify_consensus_vote_ok_iff (O : ProtoOracle) (v : PbftSignedCommitVote)
    (sl : PbftSeal) (vid : Bytes) :
    PbftNode.verify_consensus_vote O v sl = Except.ok vid ↔
      (voteVerifies O sl v ∧ vid = voteSignerId O v) := by
  cases hm : O.parsePbftMessage v.message_bytes with
  | none =>
    simp [PbftNode.verify_consensus_vote, voteVerifies, hm]
  | some m =>
    by_cases hb : m.block.block_id = sl.previous_id
    · cases hh : O.parseHeader v.header_bytes with
      | none =>
        simp [PbftNode.verify_consensus_vote, voteVerifies, hm, hh, hb]
      | some hd =>
        cases hv : O.verifySig v.header_signature v.header_bytes hd.signer_id with
        | none =>
          simp [PbftNode.verify_consensus_vote, voteVerifies, hm, hh, hb, hv]
        | some bv =>
          cases bv with
          | false =>
            simp [PbftNode.verify_consensus_vote, voteVerifies, hm, hh, hb, hv]
          | true =>
            by_cases hs : O.sha512 v.message_bytes = hd.content_sha512
            · simp [PbftNode.verify_consensus_vote, voteVerifies, voteSignerId,
                hm, hh, hb, hv, hs, eq_comm]
            · simp [PbftNode.verify_consensus_vote, voteVerifies, hm, hh, hb, hv, hs]
    · simp [PbftNode.verify_consensus_vote, voteVerifies, hm, hb]

/-- Helper: the voter-id fold succeeds exactly when every vote verifies,
and then yields the deduplicated signer ids folded over the accumulator. -/
theorem collectVoterIdsAux_ok_iff (O : ProtoOracle) (sl : PbftSeal) :
    ∀ (l : List PbftSignedCommitVote) (acc ids : List Bytes),
      PbftNode.collectVoterIdsAux O sl l acc = Except.ok ids ↔
        ((∀ v ∈ l, voteVerifies O sl v) ∧
         ids = l.foldl (fun a v => hsInsert a (voteSignerId O v)) acc) := by
  intro l
  induction l with
  | nil =>
    intro acc ids
    simp [PbftNode.collectVoterIdsAux, eq_comm]
  | cons v rest ih =>
    intro acc ids
    cases hv : PbftNode.verify_consensus_vote O v sl with
    | error e =>
      have hnv : ¬ voteVerifies O sl v := by
        intro hvv
        have h := (verify_consensus_vote_ok_iff O v sl (voteSignerId O v)).mpr ⟨hvv, rfl⟩
        rw [hv] at h
        cases h
      simp [PbftNode.collectVoterIdsAux, hv, hnv]
    | ok vid =>
      obtain ⟨hvv, hvid⟩ := (verify_consensus_vote_ok_iff O v sl vid).mp hv
      subst hvid
      simp [PbftNode.collectVoterIdsAux, hv, ih, hvv]

/-- C1 counterexample: at block number 2 with a payload parsing to a seal
whose one-byte previous id mismatches the block's, verification fails but
no error is returned: the source's error formatter slices
`seal.previous_id[..3]` and panics (modelled as `none`), refuting the
claim's clause that any failure yields an error. -/
theorem verify_consensus_seal_counterexample :
    2 ≤ blockOne.block_num ∧
    sealShort.previous_id ≠ blockOne.previous_id ∧
    PbftNode.verify_consensus_seal oracleShort peersOne witState blockOne
      = none := by
  refine ⟨by decide, by decide, ?_⟩
  rfl

/-- C1 (amended): for every block with `block_num ≥ 2`,
`verify_consensus_seal` returns the parsed seal if and only if the payload
is non-empty and parses as a seal, the seal's previous id and summary equal
the block's, every vote's inner Commit message references the seal's
previous id with a verifying header signature and sha512 content hash, the
distinct voter ids are a subset of the sealed block's peer set minus
`block.signer_id`, and there are at least `2f` distinct voter ids; any
failure yields an error (never `ok none`), except that a previous-id
mismatch where either id is shorter than 3 bytes panics while formatting
the error message (the `[..3]` slices) instead of returning — and that is
the only panic.  For every block with `block_num < 2`, verification is
skipped and no seal is returned. -/
theorem verify_consensus_seal_spec (O : ProtoOracle) (sp : SettingsPeers)
    (st : PbftState) (block : Block) :
    (block.block_num < 2 →
      PbftNode.verify_consensus_seal O sp st block = some (Except.ok none)) ∧
    (2 ≤ block.block_num →
      PbftNode.verify_consensus_seal O sp st block ≠ some (Except.ok none) ∧
      (∀ sl, PbftNode.verify_consensus_seal O sp st block
          = some (Except.ok (some sl)) ↔
        (block.payload ≠ [] ∧
         O.parseSeal block.payload = some sl ∧
         sl.previous_id = block.previous_id ∧
         sl.summary = block.summary ∧
         (∀ v ∈ sl.previous_commit_votes, voteVerifies O sl v) ∧
         (∀ vid ∈ sealVoterIds O sl,
            vid ∈ (sp block.previous_id).filter fun pid => pid ≠ block.signer_id) ∧
         2 * st.f ≤ (sealVoterIds O sl).length)) ∧
      (PbftNode.verify_consensus_seal O sp st block = none ↔
        (block.payload ≠ [] ∧
         ∃ sl, O.parseSeal block.payload = some sl ∧
           sl.previous_id ≠ block.previous_id ∧
           (sl.previous_id.length < 3 ∨ block.previous_id.length < 3)))) := by
  constructor
  · intro h
    simp [PbftNode.verify_consensus_seal, h]
  · intro h2
    have hn2 : ¬ block.block_num < 2 := by omega
    by_cases hp : block.payload = []
    · exact ⟨by simp [PbftNode.verify_consensus_seal, hn2, hp],
        fun sl => by simp [PbftNode.verify_consensus_seal, hn2, hp],
        by simp [PbftNode.verify_consensus_seal, hn2, hp]⟩
    · cases hps : O.parseSeal block.payload with
      | none =>
        exact ⟨by simp [PbftNode.verify_consensus_seal, hn2, hp, hps],
          fun sl => by simp [PbftNode.verify_consensus_seal, hn2, hp, hps],
          by simp [PbftNode.verify_consensus_seal, hn2, hp, hps]⟩
      | some sl0 =>
        by_cases hprev : sl0.previous_id = block.previous_id
        · by_cases hsum : sl0.summary = block.summary
          · cases hc : PbftNode.collectVoterIds O sl0 with
            | error e =>
              have heqval : PbftNode.verify_consensus_seal O sp st block
                  = some (Except.error e) := by
                simp only [PbftNode.verify_consensus_seal, hps, hc]
                rw [if_neg hn2, if_neg hp, if_neg (not_not_intro hprev),
                  if_neg (not_not_intro hsum)]
              refine ⟨by simp [heqval], fun sl => ⟨by simp [heqval], ?_⟩, ?_⟩
              · rintro ⟨-, hsl, -, -, hall, -, -⟩
                obtain rfl := Option.some.inj hsl
                have hOK : PbftNode.collectVoterIdsAux O sl0
                    sl0.previous_commit_votes []
                    = Except.ok (sl0.previous_commit_votes.foldl
                        (fun a v => hsInsert a (voteSignerId O v)) []) :=
                  (collectVoterIdsAux_ok_iff O sl0 sl0.previous_commit_votes [] _).mpr
                    ⟨hall, rfl⟩
                have hc' : PbftNode.collectVoterIdsAux O sl0
                    sl0.previous_commit_votes [] = Except.error e := hc
                rw [hOK] at hc'
                cases hc'
              · refine ⟨by simp [heqval], ?_⟩
                rintro ⟨-, sl, hsl, hne, -⟩
                obtain rfl := Option.some.inj hsl
                exact absurd hprev hne
            | ok ids =>
              obtain ⟨hall, hids⟩ := (collectVoterIdsAux_ok_iff O sl0
                sl0.previous_commit_votes [] ids).mp hc
              have hids2 : ids = sealVoterIds O sl0 := hids
              by_cases hsub : ∀ vid ∈ ids,
                  vid ∈ (sp block.previous_id).filter fun pid => pid ≠ block.signer_id
              · by_cases hlen : ids.length < 2 * st.f
                · have heqval : PbftNode.verify_consensus_seal O sp st block
                      = some (Except.error
                          (PbftError.InternalError "Not enough votes")) := by
                    simp only [PbftNode.verify_consensus_seal, hps, hc]
                    rw [if_neg hn2, if_neg hp, if_neg (not_not_intro hprev),
                      if_neg (not_not_intro hsum), if_neg (not_not_intro hsub),
                      if_pos hlen]
                  refine ⟨by simp [heqval], fun sl => ⟨by simp [heqval], ?_⟩, ?_⟩
                  · rintro ⟨-, hsl, -, -, -, -, hlen2⟩
                    obtain rfl := Option.some.inj hsl
                    rw [← hids2] at hlen2
                    omega
                  · refine ⟨by simp [heqval], ?_⟩
                    rintro ⟨-, sl, hsl, hne, -⟩
                    obtain rfl := Option.some.inj hsl
                    exact absurd hprev hne
                · have heqval : PbftNode.verify_consensus_seal O sp st block
                      = some (Except.ok (some sl0)) := by
                    simp only [PbftNode.verify_consensus_seal, hps, hc]
                    rw [if_neg hn2, if_neg hp, if_neg (not_not_intro hprev),
                      if_neg (not_not_intro hsum), if_neg (not_not_intro hsub),
                      if_neg hlen]
                  refine ⟨by simp [heqval], fun sl => ⟨?_, ?_⟩, ?_⟩
                  · intro hlhs
                    rw [heqval] at hlhs
                    obtain rfl := Option.some.inj
                      (Except.ok.inj (Option.some.inj hlhs))
                    refine ⟨hp, rfl, hprev, hsum, hall, ?_, ?_⟩
                    · rw [← hids2]
                      exact hsub
                    · rw [← hids2]
                      omega
                  · rintro ⟨-, hsl, -, -, -, -, -⟩
                    obtain rfl := Option.some.inj hsl
                    exact heqval
                  · refine ⟨by simp [heqval], ?_⟩
                    rintro ⟨-, sl, hsl, hne, -⟩
                    obtain rfl := Option.some.inj hsl
                    exact absurd hprev hne
              · have heqval : PbftNode.verify_consensus_seal O sp st block
                    = some (Except.error
                        (PbftError.InternalError "Got unexpected vote IDs")) := by
                  simp only [PbftNode.verify_consensus_seal, hps, hc]
                  rw [if_neg hn2, if_neg hp, if_neg (not_not_intro hprev),
                    if_neg (not_not_intro hsum), if_pos hsub]
                refine ⟨by simp [heqval], fun sl => ⟨by simp [heqval], ?_⟩, ?_⟩
                · rintro ⟨-, hsl, -, -, -, hsub2, -⟩
                  obtain rfl := Option.some.inj hsl
                  rw [← hids2] at hsub2
                  exact absurd hsub2 hsub
                · refine ⟨by simp [heqval], ?_⟩
                  rintro ⟨-, sl, hsl, hne, -⟩
                  obtain rfl := Option.some.inj hsl
                  exact absurd hprev hne
          · have heqval : PbftNode.verify_consensus_seal O sp st block
                = some (Except.error (PbftError.InternalError
                    "Seal's summary doesn't match block's summary")) := by
              simp only [PbftNode.verify_consensus_seal, hps]
              rw [if_neg hn2, if_neg hp, if_neg (not_not_intro hprev),
                if_pos hsum]
            refine ⟨by simp [heqval], fun sl => ⟨by simp [heqval], ?_⟩, ?_⟩
            · rintro ⟨-, hsl, -, hsum2, -, -, -⟩
              obtain rfl := Option.some.inj hsl
              exact absurd hsum2 hsum
            · refine ⟨by simp [heqval], ?_⟩
              rintro ⟨-, sl, hsl, hne, -⟩
              obtain rfl := Option.some.inj hsl
              exact absurd hprev hne
        · by_cases hlen3 : sl0.previous_id.length < 3 ∨ block.previous_id.length < 3
          · have heqval : PbftNode.verify_consensus_seal O sp st block
                = none := by
              simp only [PbftNode.verify_consensus_seal, hps]
              rw [if_neg hn2, if_neg hp, if_pos hprev, if_pos hlen3]
            refine ⟨by simp [heqval], fun sl => ⟨by simp [heqval], ?_⟩, ?_⟩
            · rintro ⟨-, hsl, hprev2, -, -, -, -⟩
              obtain rfl := Option.some.inj hsl
              exact absurd hprev2 hprev
            · exact ⟨fun _ => ⟨hp, sl0, rfl, hprev, hlen3⟩, fun _ => heqval⟩
          · have heqval : PbftNode.verify_consensus_seal O sp st block
                = some (Except.error (PbftError.InternalError
                    "Seal's previous ID doesn't match block's previous ID")) := by
              simp only [PbftNode.verify_consensus_seal, hps]
              rw [if_neg hn2, if_neg hp, if_pos hprev, if_neg hlen3]
            refine ⟨by simp [heqval], fun sl => ⟨by simp [heqval], ?_⟩, ?_⟩
            · rintro ⟨-, hsl, hprev2, -, -, -, -⟩
              obtain rfl := Option.some.inj hsl
              exact absurd hprev2 hprev
            · refine ⟨by simp [heqval], ?_⟩
              rintro ⟨-, sl, hsl, -, hlen3b⟩
              obtain rfl := Option.some.inj hsl
              exact absurd hlen3b hlen3

/-- Witness for C1 (amended): under the concrete oracle, the two-vote seal
embedded in block 2 verifies and is returned. -/
theorem verify_consensus_seal_spec_witness :
    PbftNode.verify_consensus_seal oracleOne peersOne witState blockOne
      = some (Except.ok (some sealOne)) :=
  ((((verify_consensus_seal_spec oracleOne peersOne witState blockOne).2
      (by decide)).2.1) sealOne).mpr
    ⟨by decide, rfl, rfl, rfl,
     by
      intro v hv
      simp [sealOne] at hv
      rcases hv with rfl | rfl
      · exact ⟨_, _, rfl, rfl, rfl, rfl, rfl⟩
      · exact ⟨_, _, rfl, rfl, rfl, rfl, rfl⟩,
     by decide, by decide⟩

end Pbft